import Mathlib

/-!
Shallow embedding of the wyag-rust object store (src/src/lib.rs).

Bytes are modelled as `Nat` (values 0..255), byte strings as `List Nat`.
Rust `String` values that the code builds from bytes are also kept as
UTF-8 byte lists, with explicit UTF-8 validity checks where the source
calls `str::from_utf8` / `String::from_utf8`.

Rust control-flow outcomes are modelled by `RRes`:
  * `.ok`    — normal return,
  * `.err`   — a returned `WyagError` (identified by its message),
  * `.panic` — a Rust panic (failed `assert!`/`assert_eq!`, `unwrap()` on
               `None`/`Err`, out-of-bounds slicing or indexing, arithmetic
               overflow in debug builds),
  * `.div`   — non-termination (the source loops carry no fuel; recursive
               functions here take a fuel argument large enough that `.div`
               is returned only on genuinely diverging control flow).

Iterator positions: the source repeatedly uses
`raw.iter().skip(start).position(p)`, which yields a position RELATIVE to
`start`; several call sites then use that value as an ABSOLUTE index.  The
embedding reproduces exactly that (see `posFrom`).
-/

namespace Wyag

abbrev Byte := Nat
abbrev Bytes := List Nat

/-- Result of running a piece of the Rust code: ok / returned error /
panic / divergence. -/
inductive RRes (α : Type) where
  | ok : α → RRes α
  | err : String → RRes α
  | panic : String → RRes α
  | div : RRes α
deriving DecidableEq

def RRes.bind : RRes α → (α → RRes β) → RRes β
  | .ok a, f => f a
  | .err m, _ => .err m
  | .panic m, _ => .panic m
  | .div, _ => .div

instance : Monad RRes where
  pure := RRes.ok
  bind := RRes.bind

/-- Position of the first occurrence of `b` in `l` (like `Iterator::position`). -/
def findPos (b : Byte) : Bytes → Option Nat
  | [] => none
  | c :: r => if c = b then some 0 else (findPos b r).map (· + 1)

/-- Models `raw.iter().skip(start).position(|&r| r == b)`: the returned
position is relative to `start`, exactly as in the source. -/
def posFrom (raw : Bytes) (start : Nat) (b : Byte) : Option Nat :=
  findPos b (raw.drop start)

/-- Models the Rust slice `&raw[lo..hi]`: panics when `lo > hi` or
`hi > raw.len()`. -/
def rustSlice (raw : Bytes) (lo hi : Nat) : RRes Bytes :=
  if lo ≤ hi ∧ hi ≤ raw.length then .ok ((raw.drop lo).take (hi - lo))
  else .panic "slice index out of range"

/-- Models the Rust index expression `raw[i]`: panics when out of bounds. -/
def rustIndex (raw : Bytes) (i : Nat) : RRes Byte :=
  match raw.get? i with
  | some b => .ok b
  | none => .panic "index out of bounds"

/-- UTF-8 validity of a byte sequence (the check behind `str::from_utf8`).
State: `none` = expecting a leading byte; `some (k, lo, hi)` = expecting a
continuation byte in `[lo, hi]`, then `k` more continuation bytes in
`[128, 191]`.  The ranges follow RFC 3629 (no overlongs, no surrogates,
max U+10FFFF). -/
def isValidUtf8Go : Bytes → Option (Nat × Nat × Nat) → Bool
  | [], st => st.isNone
  | b :: r, none =>
    if b ≤ 127 then isValidUtf8Go r none
    else if 194 ≤ b ∧ b ≤ 223 then isValidUtf8Go r (some (0, 128, 191))
    else if b = 224 then isValidUtf8Go r (some (1, 160, 191))
    else if 225 ≤ b ∧ b ≤ 236 then isValidUtf8Go r (some (1, 128, 191))
    else if b = 237 then isValidUtf8Go r (some (1, 128, 159))
    else if 238 ≤ b ∧ b ≤ 239 then isValidUtf8Go r (some (1, 128, 191))
    else if b = 240 then isValidUtf8Go r (some (2, 144, 191))
    else if 241 ≤ b ∧ b ≤ 243 then isValidUtf8Go r (some (2, 128, 191))
    else if b = 244 then isValidUtf8Go r (some (2, 128, 143))
    else false
  | b :: r, some (k, lo, hi) =>
    if lo ≤ b ∧ b ≤ hi then
      match k with
      | 0 => isValidUtf8Go r none
      | Nat.succ k2 => isValidUtf8Go r (some (k2, 128, 191))
    else false

def isValidUtf8 (l : Bytes) : Bool := isValidUtf8Go l none

/-- The `LinkedHashMap<String, Vec<String>>` used for KVLM documents:
an insertion-ordered association list from key bytes to value-byte lists. -/
abbrev KVLM := List (Bytes × List Bytes)

def kvContains (d : KVLM) (k : Bytes) : Bool := d.any (fun p => p.1 == k)

def kvGet (d : KVLM) (k : Bytes) : Option (List Bytes) :=
  (d.find? (fun p => p.1 == k)).map (·.2)

/-- Models `dict.get_mut(&key).unwrap().push(value)`. -/
def kvPush (d : KVLM) (k : Bytes) (v : Bytes) : KVLM :=
  d.map (fun p => if p.1 == k then (p.1, p.2 ++ [v]) else p)

/-- Models `LinkedHashMap::insert`: replaces the value at an existing key
(keeping its position), otherwise appends at the back. -/
def kvInsert (d : KVLM) (k : Bytes) (v : List Bytes) : KVLM :=
  if kvContains d k then d.map (fun p => if p.1 == k then (p.1, v) else p)
  else d ++ [(k, v)]

/-- Models `value.replace("\n ", "\n")` (kvlm_parse, continuation lines). -/
def replaceNlSpaceWithNl : Bytes → Bytes
  | 10 :: 32 :: r => 10 :: replaceNlSpaceWithNl r
  | b :: r => b :: replaceNlSpaceWithNl r
  | [] => []

/-- Models `val.replace("\n", "\n ")` (kvlm_serialize). -/
def replaceNlWithNlSpace : Bytes → Bytes
  | 10 :: r => 10 :: 32 :: replaceNlWithNlSpace r
  | b :: r => b :: replaceNlWithNlSpace r
  | [] => []

/-- The value-end loop of `kvlm_parse` (lib.rs lines 821-830):

    let mut end = start;
    loop {
        match raw.iter().skip(end + 1).position(|&r| r == b'\n') {
            Some(i) => end = i,        // relative position stored as absolute
            None => break,
        }
        if raw[end + 1] != b' ' { break; }
    }

The loop state is only `end < raw.length`, so `raw.length + 2` iterations
without a break mean a state repeats and the Rust loop diverges. -/
def kvlm_find_end (raw : Bytes) : Nat → Nat → RRes Nat
  | 0, _ => .div
  | Nat.succ fuel, e =>
    match posFrom raw (e + 1) 10 with
    | none => .ok e
    | some i => do
      let b ← rustIndex raw (i + 1)
      if b ≠ 32 then .ok i else kvlm_find_end raw fuel i

/-- Base case of `kvlm_parse` (lib.rs lines 794-803): the code runs
`assert_eq!(newline.unwrap(), start)` — `unwrap` panics when there is no
newline, the assert panics when the (relative) newline position differs
from `start`; then the remainder `&raw[start + 1..]` becomes the message
under the empty key, unless it is invalid UTF-8, in which case the dict is
returned unchanged. -/
def kvlm_base (raw : Bytes) (start : Nat) (dict : KVLM) (newline : Option Nat) :
    RRes KVLM :=
  match newline with
  | none => .panic "unwrap on None: newline"
  | some n =>
    if n ≠ start then .panic "assertion failed: newline == start"
    else if start + 1 > raw.length then .panic "slice index out of range"
    else
      let valueBytes := raw.drop (start + 1)
      if isValidUtf8 valueBytes then .ok (kvInsert dict [] [valueBytes])
      else .ok dict

/-- `kvlm_parse` (lib.rs lines 776-845).  `space` and `newline` are
positions relative to `start` (via `.skip(start).position(..)`), but the
source then uses them as absolute indices; the embedding mirrors that.
Rust's `||` is short-circuit: when `space` is `Some`, `newline.unwrap()`
is evaluated in the condition and panics on `None`.
The recursion restarts at `end + 1`, which need not exceed `start`, so the
Rust function can diverge; `fuel` (instantiated with `raw.length + 3` at
the call site) makes that a `.div`. -/
def kvlm_parse (raw : Bytes) : Nat → Nat → KVLM → RRes KVLM
  | 0, _, _ => .div
  | Nat.succ fuel, start, dict =>
    let space := posFrom raw start 32
    let newline := posFrom raw start 10
    match space with
    | none => kvlm_base raw start dict newline
    | some s =>
      match newline with
      | none => .panic "unwrap on None: newline"
      | some n =>
        if n < s then kvlm_base raw start dict (some n)
        else do
          let keyBytes ← rustSlice raw start s
          if ¬ isValidUtf8 keyBytes then .panic "Failed to parse key in kvlm"
          else do
            let e ← kvlm_find_end raw (raw.length + 2) start
            let rVal ← rustSlice raw (s + 1) e
            if ¬ isValidUtf8 rVal then .panic "unwrap on Err: from_utf8 value"
            else
              let value := replaceNlSpaceWithNl rVal
              -- "Don't overwrite values": push only when the key exists;
              -- a first occurrence is never inserted (source lines 839-842)
              let dict2 := if kvContains dict keyBytes
                then kvPush dict keyBytes value else dict
              kvlm_parse raw fuel (e + 1) dict2

/-- `kvlm_serialize` field loop (lib.rs lines 847-870).  For the empty key
the code takes `v[0]` as the message (panicking on an empty vector); for
every other key it emits, per value, a space, the value with newlines
escaped, and a newline — note the source never pushes the key itself. -/
def kvlm_serialize_go : KVLM → Bytes → Bytes → RRes Bytes
  | [], ret, mainMsg => .ok (ret ++ [10] ++ mainMsg)
  | (k, v) :: rest, ret, mainMsg =>
    if k = [] then
      match v.head? with
      | none => .panic "index out of bounds: v[0]"
      | some m => kvlm_serialize_go rest ret m
    else
      let fieldBytes :=
        (v.map (fun val => [32] ++ replaceNlWithNlSpace val ++ [10])).flatten
      kvlm_serialize_go rest (ret ++ fieldBytes) mainMsg

def kvlm_serialize (hm : KVLM) : RRes Bytes := kvlm_serialize_go hm [] []

/-- `GitTreeLeaf` (lib.rs lines 889-893): mode and path as raw bytes, the
digest already converted to its textual form (`sha: String`, kept as
UTF-8 bytes here). -/
structure GitTreeLeaf where
  mode : Bytes
  path : Bytes
  sha : Bytes
deriving DecidableEq

/-- `u32::from_be_bytes` on the 4-byte buffer. -/
def u32_from_be_bytes (b : List Nat) : Nat :=
  match b with
  | [b0, b1, b2, b3] => ((b0 * 256 + b1) * 256 + b2) * 256 + b3
  | _ => 0

/-- Loop body of `sha_parse_u32` (lib.rs lines 966-977): on every index
divisible by 4 the buffer so far is added into the accumulator and reset,
then the byte is stored at `i % 4`; the final buffer (bytes 16-19 of a
20-byte digest) is never added.  The `u32` addition is modelled modulo
2^32 (a debug build would panic on overflow; none of the inputs used in
the theorems below overflow). -/
def sha_parse_u32_go : Bytes → Nat → List Nat → Nat → Nat
  | [], _, _, sha => sha
  | byte :: rest, i, buff, sha =>
    if i % 4 = 0 then
      sha_parse_u32_go rest (i + 1) (([0, 0, 0, 0] : List Nat).set (i % 4) byte)
        ((sha + u32_from_be_bytes buff) % 2 ^ 32)
    else
      sha_parse_u32_go rest (i + 1) (buff.set (i % 4) byte) sha

def sha_parse_u32 (v : Bytes) : Nat := sha_parse_u32_go v 0 [0, 0, 0, 0] 0

/-- Lowercase hex digit byte. -/
def hexDigitByte (n : Nat) : Byte := if n < 10 then 48 + n else 87 + n

def toHexBytesGo : Nat → Nat → Bytes → Bytes
  | 0, _, acc => acc
  | Nat.succ fuel, n, acc =>
    if n = 0 then acc else toHexBytesGo fuel (n / 16) (hexDigitByte (n % 16) :: acc)

/-- `sha_parse_str` (lib.rs lines 980-982): `format!("{:x}", i)` —
lowercase hex with no leading zeros ("0" for zero). -/
def sha_parse_str (n : Nat) : Bytes :=
  if n = 0 then [48] else toHexBytesGo (n + 1) n []

/-- `tree_parse_one` (lib.rs lines 895-935).  `x` and `y` come from
`.skip(start).position(..)` and are relative to `start`, but the source
slices with them as absolute indices.  `assert!(x - start == 5 || x -
start == 6)` panics when the mode length is wrong (and `x - start`
itself panics on underflow in a debug build when `x < start`). -/
def tree_parse_one (raw : Bytes) (start : Nat) : RRes (Nat × GitTreeLeaf) :=
  match posFrom raw start 32 with
  | none => .err "no space found in raw byte stream of tree parse"
  | some x =>
    if x < start then .panic "attempt to subtract with overflow"
    else if ¬ (x - start = 5 ∨ x - start = 6) then
      .panic "assertion failed: mode length is 5 or 6"
    else do
      let mode ← rustSlice raw start x
      match posFrom raw start 0 with
      | none => .err "no null terminator found in raw byte stream of tree parse"
      | some y => do
        let path ← rustSlice raw (x + 1) y
        let shaRaw ← rustSlice raw (y + 1) (y + 21)
        let shaStr := sha_parse_str (sha_parse_u32 shaRaw)
        .ok (y + 21, ⟨mode, path, shaStr⟩)

/-- `tree_parse` (lib.rs lines 937-949): `pos += pos_m` with `pos_m = y +
21 ≥ 21`, so the cursor advances by at least 21 per entry and
`raw.length + 1` fuel is never exhausted on terminating runs. -/
def tree_parse_go (raw : Bytes) : Nat → Nat → List GitTreeLeaf →
    RRes (List GitTreeLeaf)
  | 0, _, _ => .div
  | Nat.succ fuel, pos, acc =>
    if pos < raw.length then do
      let r ← tree_parse_one raw pos
      tree_parse_go raw fuel (pos + r.1) (acc ++ [r.2])
    else .ok acc

def tree_parse (raw : Bytes) : RRes (List GitTreeLeaf) :=
  tree_parse_go raw (raw.length + 1) 0 []

/-- `tree_serialize` (lib.rs lines 951-963): per entry the mode, a space,
the path and a NUL are emitted; the digest is only parsed into the unused
binding `let i = u32::from_str_radix(&g.sha, 16);` and never appended. -/
def tree_serialize (items : List GitTreeLeaf) : RRes Bytes :=
  .ok ((items.map (fun g => g.mode ++ [32] ++ g.path ++ [0])).flatten)

/-- The four object variants with the structured body each Rust struct
carries: `GitBlob.blob_data`, `GitCommit.kvlm`, `GitTree.items`; `GitTag`
carries no payload (its `new` ignores the bytes). -/
inductive GObj where
  | blob : Bytes → GObj
  | commit : KVLM → GObj
  | tree : List GitTreeLeaf → GObj
  | tag : GObj
deriving DecidableEq

/-- `fmt()` of each variant. -/
def fmtG : GObj → Bytes
  | .blob _ => [98, 108, 111, 98]
  | .commit _ => [99, 111, 109, 109, 105, 116]
  | .tree _ => [116, 114, 101, 101]
  | .tag => [116, 97, 103]

/-- `serialize()` of each variant (lib.rs lines 95-98, 122-124, 146-148,
67-69): commit serializes its KVLM, blob returns its bytes, tree uses
`tree_serialize`, tag returns an error (not yet implemented — the message
carries the source's typo). -/
def serializeG : GObj → RRes Bytes
  | .blob d => .ok d
  | .commit kvlm => kvlm_serialize kvlm
  | .tree items => tree_serialize items
  | .tag => .err "Serialize on GitTag not yet implenented"

/-- `GitCommit::deserialize` (lib.rs lines 100-105): runs `kvlm_parse`
from offset 0 on a fresh map.  Fuel `data.length + 3`: each recursive
call is determined by its start offset in `[0, data.length]`, so more
calls than that means an offset repeats and the Rust code diverges. -/
def gitCommit_deserialize (data : Bytes) : RRes KVLM :=
  kvlm_parse data (data.length + 3) 0 []

/-- `GitTree::deserialize` (lib.rs lines 150-154). -/
def gitTree_deserialize (data : Bytes) : RRes (List GitTreeLeaf) :=
  tree_parse data

/-- `GitBlob::deserialize` (lib.rs lines 126-129): stores the bytes. -/
def gitBlob_deserialize (data : Bytes) : RRes Bytes := .ok data

/-- Round trip `deserialize(serialize(o))` for the Commit variant. -/
def commit_roundtrip (k : KVLM) : RRes KVLM := do
  let s ← kvlm_serialize k
  gitCommit_deserialize s

/-- Round trip `deserialize(serialize(o))` for the Tree variant. -/
def tree_roundtrip (items : List GitTreeLeaf) : RRes (List GitTreeLeaf) := do
  let s ← tree_serialize items
  gitTree_deserialize s

/-- Round trip `deserialize(serialize(o))` for the Blob variant. -/
def blob_roundtrip (d : Bytes) : RRes Bytes := do
  let s ← serializeG (.blob d)
  gitBlob_deserialize s

/-- `decode_reader` (lib.rs lines 540-545):

    let mut z = ZlibDecoder::new(&bytes[..]);
    let mut byteBuf: Vec<u8> = Vec::new();
    z.read_exact(&mut byteBuf)?;
    Ok(byteBuf)

`read_exact` fills exactly `byteBuf.len() = 0` bytes, reads nothing from
the stream and always succeeds, so the function returns `Ok(vec![])` for
every input. -/
def decode_reader (_bytes : Bytes) : Except String Bytes :=
  Except.ok []

/-- `"...".parse::<usize>()` over the byte slice: nonempty decimal digits,
with an optional leading `+` sign; anything else is a parse error
(overflow, which also errors in Rust, is not reached by any input used
here). -/
def parseUsizeDigitsGo : Bytes → Nat → Option Nat
  | [], acc => some acc
  | b :: r, acc =>
    if 48 ≤ b ∧ b ≤ 57 then parseUsizeDigitsGo r (acc * 10 + (b - 48)) else none

def parseUsize (s : Bytes) : Option Nat :=
  match s with
  | [] => none
  | 43 :: rest => if rest = [] then none else parseUsizeDigitsGo rest 0
  | _ => parseUsizeDigitsGo s 0

/-- `data.len().to_string().into_bytes()`. -/
def natToDecBytesGo : Nat → Nat → Bytes → Bytes
  | 0, _, acc => acc
  | Nat.succ fuel, n, acc =>
    if n = 0 then acc else natToDecBytesGo fuel (n / 10) ((48 + n % 10) :: acc)

def natToDecBytes (n : Nat) : Bytes :=
  if n = 0 then [48] else natToDecBytesGo (n + 1) n []

/-- Header parse and dispatch of `object_read` over the decompressed bytes
(lib.rs lines 499-537).  `xIdx` and `yIdx` are the positions of the first
space and the first NUL.  The source slices the size as
`&decoded[xIdx..yIdx]` — including the space itself — and `unwrap`s both
the UTF-8 decode and the integer parse; the length check compares against
`decoded.len() - (yIdx - 1)` (`yIdx - 1` is Nat-truncated here; the
branch is unreachable with `yIdx = 0` because the size slice panics
first).  Dispatch goes through each variant's `new`, which for Commit,
Tree and Tag ignores the body (their structured fields stay empty —
`kvlm: LinkedHashMap::default()`, `items: Vec::new()`); only `GitBlob`
keeps the bytes. -/
def object_read_decoded (decoded : Bytes) : RRes GObj :=
  match posFrom decoded 0 32 with
  | none => .err "no space delimeter was found"
  | some xIdx =>
    match posFrom decoded 0 0 with
    | none => .err "no null delimeter was found"
    | some yIdx => do
      let sizeBytes ← rustSlice decoded xIdx yIdx
      if ¬ isValidUtf8 sizeBytes then .panic "unwrap on Err: from_utf8 size"
      else
        match parseUsize sizeBytes with
        | none => .panic "unwrap on Err: parse size"
        | some size =>
          if size ≠ decoded.length - (yIdx - 1) then
            .err "Malformed object, bad length."
          else do
            let dfmt ← rustSlice decoded 0 xIdx
            let body ← rustSlice decoded (yIdx + 1) decoded.length
            if dfmt = [99, 111, 109, 109, 105, 116] then .ok (GObj.commit [])
            else if dfmt = [116, 114, 101, 101] then .ok (GObj.tree [])
            else if dfmt = [116, 97, 103] then .ok GObj.tag
            else if dfmt = [98, 108, 111, 98] then .ok (GObj.blob body)
            else .err "Unknown type"

/-- `object_read` (lib.rs lines 468-538) over an abstract file store from
the object id to the raw file bytes.  The path computation
`&sha[..2], &sha[2..]` panics for an id shorter than 2 bytes; a missing
file is the pre-deflate read error; then decompression and header
parsing. -/
def object_read (store : Bytes → Option Bytes) (sha : Bytes) : RRes GObj :=
  if sha.length < 2 then .panic "byte index 2 is out of bounds of the string"
  else
    match store sha with
    | none => .err "Failed to read git object file"
    | some raw =>
      match decode_reader raw with
      | .ok decoded => object_read_decoded decoded
      | .error _ => .err "Failed to decode ZLIB encoded byte array"

/-- `object_write` (lib.rs lines 549-610), abstracting the SHA-1 hex
digest as a function argument.  After serializing, framing
(`fmt ++ " " ++ decimal(len) ++ NUL ++ data`) and hashing, the persisting
branch evaluates `obj.repo().unwrap()` — the `GitObject` trait's default
`repo()` implementation, which no variant overrides and whose body is
`panic!("Not yet implemented")` (lib.rs lines 29-31).  The code after it
(zlib compression and `std::fs::write(path, "TODO FIXME")`, which would
persist that literal string instead of the compressed bytes) is
unreachable. -/
def object_write (hash : Bytes → Bytes) (obj : GObj) (actually_write : Bool)
    (store : Bytes → Option Bytes) : RRes (Bytes × (Bytes → Option Bytes)) :=
  match serializeG obj with
  | .err m => .err m
  | .panic m => .panic m
  | .div => .div
  | .ok data =>
    let result := fmtG obj ++ [32] ++ natToDecBytes data.length ++ [0] ++ data
    let outStr := hash result
    if actually_write then .panic "Not yet implemented"
    else .ok (outStr, store)

/-- ASCII bytes of the key "parent". -/
def parentKeyBytes : Bytes := [112, 97, 114, 101, 110, 116]

/-- ASCII bytes of the key "parents" — the key `log_graphviz` actually
indexes (lib.rs line 764). -/
def parentsKeyBytes : Bytes := [112, 97, 114, 101, 110, 116, 115]

/-- The parent loop of `log_graphviz` (lib.rs lines 765-771): for each
parent sha, print the edge then recurse; `rec` is the traversal at the
current fuel. -/
def log_parents
    (rec : Bytes → List Bytes → List (Bytes × Bytes) →
      RRes (List Bytes × List (Bytes × Bytes)))
    (sha : Bytes) : List Bytes → List Bytes → List (Bytes × Bytes) →
    RRes (List Bytes × List (Bytes × Bytes))
  | [], seen, edges => .ok (seen, edges)
  | p :: ps, seen, edges =>
    match rec p seen (edges ++ [(sha, p)]) with
    | .ok r => log_parents rec sha ps r.1 r.2
    | .err m => .err m
    | .panic m => .panic m
    | .div => .div

/-- `log_graphviz` (lib.rs lines 742-774) over an abstract object reader.
The emitted edges (the source prints them) are accumulated in order.  A
seen sha returns immediately; otherwise the sha is pushed, the object is
read and must be a Commit (anything else is the `"??"` error); a commit
without a "parent" key is a base case; otherwise the source indexes
`cc["parents"]` — a different key — and `LinkedHashMap`'s `Index` panics
when it is absent. -/
def log_graphviz (readO : Bytes → RRes GObj) : Nat → Bytes → List Bytes →
    List (Bytes × Bytes) → RRes (List Bytes × List (Bytes × Bytes))
  | 0, _, _, _ => .div
  | Nat.succ fuel, sha, seen, edges =>
    if seen.contains sha then .ok (seen, edges)
    else
      let seen2 := seen ++ [sha]
      match readO sha with
      | .err m => .err m
      | .panic m => .panic m
      | .div => .div
      | .ok o =>
        match o with
        | .commit kvlm =>
          if ¬ kvContains kvlm parentKeyBytes then .ok (seen2, edges)
          else
            match kvGet kvlm parentsKeyBytes with
            | none => .panic "no entry found for key"
            | some parents =>
              log_parents (log_graphviz readO fuel) sha parents seen2 edges
        | _ => .err "??"

/-- Minimal file-system model for checkout: a set of directory paths and a
map from file paths to contents.  Paths are flat byte strings; `join`
inserts a separator byte. -/
structure FS where
  dirs : List Bytes
  files : List (Bytes × Bytes)
deriving DecidableEq

def pathJoin (p q : Bytes) : Bytes := p ++ [47] ++ q

def fsExists (fs : FS) (p : Bytes) : Bool :=
  fs.dirs.contains p || fs.files.any (fun q => q.1 == p)

def fsIsDir (fs : FS) (p : Bytes) : Bool := fs.dirs.contains p

/-- `read_dir(p).next().is_some()`: some entry lives under `p`. -/
def fsDirNonempty (fs : FS) (p : Bytes) : Bool :=
  fs.dirs.any (fun d => (p ++ [47]).isPrefixOf d) ||
    fs.files.any (fun q => (p ++ [47]).isPrefixOf q.1)

/-- `std::fs::create_dir`: fails when the path already exists. -/
def fsCreateDir (fs : FS) (p : Bytes) : Option FS :=
  if fsExists fs p then none else some { fs with dirs := fs.dirs ++ [p] }

/-- `std::fs::write`: creates or overwrites the file. -/
def fsWrite (fs : FS) (p : Bytes) (data : Bytes) : FS :=
  { fs with files := fs.files.filter (fun q => ¬ q.1 == p) ++ [(p, data)] }

/-- `tree_checkout` (lib.rs lines 1130-1171) over an abstract object
reader: for each entry, decode the path, join it onto the destination,
read the referenced object; a Tree gets a fresh directory and a recursive
walk, a Blob is written as a file, anything else is an error.  Errors
abort the walk, keeping whatever was already materialized.  `fuel` bounds
the nesting depth (cyclic tree data would make the Rust recursion
diverge). -/
def tree_checkout (readO : Bytes → RRes GObj) : Nat → List GitTreeLeaf →
    Bytes → FS → RRes Unit × FS
  | 0, _, _, fs => (.div, fs)
  | Nat.succ _, [], _, fs => (.ok (), fs)
  | Nat.succ fuel, item :: rest, path, fs =>
    if ¬ isValidUtf8 item.path then
      (.err "Failed to parse item path tree_checkout.", fs)
    else
      let dest := pathJoin path item.path
      match readO item.sha with
      | .err m => (.err m, fs)
      | .panic m => (.panic m, fs)
      | .div => (.div, fs)
      | .ok (.tree sub) =>
        match fsCreateDir fs dest with
        | none => (.err "Failed to create destination folder during tree_checkout", fs)
        | some fs2 =>
          match tree_checkout readO fuel sub dest fs2 with
          | (.ok _, fs3) => tree_checkout readO fuel rest path fs3
          | r => r
      | .ok (.blob b) => tree_checkout readO fuel rest path (fsWrite fs dest b)
      | .ok _ =>
        (.err "Expected to retrieve a Tree or a Blob, but received some other type instead", fs)

/-- Destination verification and creation in `cmd_checkout` (lib.rs lines
1106-1127): an existing non-directory or non-empty directory is an error;
then `std::fs::create_dir` runs unconditionally (so an existing empty
directory also errors, at the create step); on success the tree walk
starts. -/
def checkout_into (readO : Bytes → RRes GObj) (fuel : Nat)
    (items : List GitTreeLeaf) (path : Bytes) (fs : FS) : RRes Unit × FS :=
  if fsExists fs path ∧ ¬ fsIsDir fs path then
    (.err "Supplied path was not a directory", fs)
  else if fsExists fs path ∧ fsDirNonempty fs path then
    (.err "Cannot create Git object directory, supplied path is not empty.", fs)
  else
    match fsCreateDir fs path with
    | none => (.err "Failed to checkout git object: Error creating directory path", fs)
    | some fs2 => tree_checkout readO fuel items path fs2

/-- ASCII bytes of the key "tree". -/
def treeKeyBytes : Bytes := [116, 114, 101, 101]

/-- `cmd_checkout` from the `object_read` call onward (lib.rs lines
1079-1127), over an abstract object reader.  A Commit is followed through
`y.kvlm.get("tree").unwrap()[0]` (both the `unwrap` and the `[0]` can
panic) to a Tree; a Tree is used directly; any other kind returns the
type-mismatch error before any file-system access. -/
def cmd_checkout (readO : Bytes → RRes GObj) (fuel : Nat) (sha : Bytes)
    (path : Bytes) (fs : FS) : RRes Unit × FS :=
  match readO sha with
  | .err m => (.err m, fs)
  | .panic m => (.panic m, fs)
  | .div => (.div, fs)
  | .ok o =>
    match o with
    | .commit kvlm =>
      match kvGet kvlm treeKeyBytes with
      | none => (.panic "unwrap on None: tree key", fs)
      | some vs =>
        match vs.head? with
        | none => (.panic "index out of bounds: index 0", fs)
        | some tsha =>
          match readO tsha with
          | .ok (.tree items) => checkout_into readO fuel items path fs
          | .ok _ =>
            (.err "Expected a tree from this commit, but failed to retreive one", fs)
          | .err _ =>
            (.err "Expected commit to contain a tree with the value tree but got nothing", fs)
          | .panic m => (.panic m, fs)
          | .div => (.div, fs)
    | .tree items => checkout_into readO fuel items path fs
    | _ =>
      (.err "Expected a tree object or a commit object, got something else", fs)

/- Concrete inputs used by the theorems below. -/

/-- Commit KVLM with one field line (key "a", value "b") and message
"m\n": the mapping the spec would serialize as "a b\n\nm\n". -/
def cexCommitKvlm : KVLM := [([97], [[98]]), ([], [[109, 10]])]

/-- One tree entry: mode "10064", path "f", sha 40 zero hex characters. -/
def cexTreeItems : List GitTreeLeaf :=
  [⟨[49, 48, 48, 54, 52], [102], List.replicate 40 48⟩]

/-- Framed bytes "blob 10\0" followed by an 8-byte body ("aaaaaaaa"): the
header declares length 10 over 8 body bytes. -/
def c3_corrupt : Bytes := [98, 108, 111, 98, 32, 49, 48, 0] ++ List.replicate 8 97

/-- Framed bytes "blob 8\0" followed by an 8-byte body: the declared
length matches the body. -/
def c3_matching : Bytes := [98, 108, 111, 98, 32, 56, 0] ++ List.replicate 8 97

/-- KVLM body "tree deadbeef\nparent aaaa\n\nInitial commit\n". -/
def c4_body : Bytes :=
  [116, 114, 101, 101, 32, 100, 101, 97, 100, 98, 101, 101, 102, 10,
   112, 97, 114, 101, 110, 116, 32, 97, 97, 97, 97, 10, 10,
   73, 110, 105, 116, 105, 97, 108, 32, 99, 111, 109, 109, 105, 116, 10]

/-- The mapping the claim expects for `c4_body`:
tree ↦ ["deadbeef"], parent ↦ ["aaaa"], "" ↦ ["Initial commit\n"]. -/
def c4_expected : KVLM :=
  [([116, 114, 101, 101], [[100, 101, 97, 100, 98, 101, 101, 102]]),
   (parentKeyBytes, [[97, 97, 97, 97]]),
   ([], [[73, 110, 105, 116, 105, 97, 108, 32, 99, 111, 109, 109, 105, 116, 10]])]

/-- Tree entry "10064 f\0" followed by a 20-byte all-zero binary digest. -/
def c6_entry : Bytes := [49, 48, 48, 54, 52, 32, 102, 0] ++ List.replicate 20 0

/-- Store for the log cycle scenario: commit "a" has parent "b", commit
"b" has parent "a". -/
def c7_store : Bytes → RRes GObj := fun s =>
  if s = [97] then .ok (GObj.commit [(parentKeyBytes, [[98]])])
  else if s = [98] then .ok (GObj.commit [(parentKeyBytes, [[97]])])
  else .err "not found"

/-- Tree entry "1006 f\0" plus 20 digest bytes: mode length 4. -/
def c8_bad : Bytes := [49, 48, 48, 54, 32, 102, 0] ++ List.replicate 20 0

/-- Tree entry "100644 f\0" plus 20 digest bytes: mode length 6. -/
def c8_good : Bytes := [49, 48, 48, 54, 52, 52, 32, 102, 0] ++ List.replicate 20 0

/-- Reader resolving every id to a Blob (checkout witness). -/
def c9_read : Bytes → RRes GObj := fun _ => .ok (GObj.blob [104])

/-- An empty file system. -/
def fsEmpty : FS := ⟨[], []⟩

/-- C1: the claim says that writing any object with persist=true and then
reading the returned digest yields an equal object.  In the code,
`object_write` with `actually_write = true` always panics with "Not yet
implemented" — the path computation calls the `GitObject` trait's default
`repo()` method, which no variant overrides — so no digest is ever
returned and nothing readable is stored (and the unreachable write below
it would persist the literal string "TODO FIXME").  Shown here for a Blob
with any body, any hash function and any store state. -/
theorem object_write_persist_panics_not_yet_implemented
    (hash : Bytes → Bytes) (store : Bytes → Option Bytes) (b : Bytes) :
    object_write hash (GObj.blob b) true store =
      RRes.panic "Not yet implemented" := rfl

/-- C2: the claim says `deserialize(serialize(o)) == o` for every variant.
It fails on three of the four: the Commit mapping {a ↦ [b], "" ↦ [m\n]}
serializes to " b\n\nm\n" (the key is never emitted) and re-parsing that
panics; a one-entry Tree serializes without its 20-byte digest and
re-parsing panics on the missing bytes; GitTag serialization is
unimplemented and returns an error. -/
theorem roundtrip_fails_for_commit_tree_tag :
    commit_roundtrip cexCommitKvlm =
        RRes.panic "assertion failed: newline == start" ∧
      commit_roundtrip cexCommitKvlm ≠ RRes.ok cexCommitKvlm ∧
      tree_roundtrip cexTreeItems = RRes.panic "slice index out of range" ∧
      tree_roundtrip cexTreeItems ≠ RRes.ok cexTreeItems ∧
      serializeG GObj.tag =
        RRes.err "Serialize on GitTag not yet implenented" := by
  decide

/-- C3: the claim says a header declaring length 10 over an 8-byte body is
rejected with CorruptObjectError, and a matching length is never rejected.
In the code the declared-size slice is `&decoded[xIdx..yIdx]`, which
includes the leading space, so `parse::<usize>().unwrap()` panics on the
mismatching example — and equally on the correctly framed "blob 8\0"
object — before the length comparison (itself computed against
`decoded.len() - (yIdx - 1)`, i.e. body length + 2) is ever reached. -/
theorem object_read_length_validation_panics :
    object_read_decoded c3_corrupt = RRes.panic "unwrap on Err: parse size" ∧
      object_read_decoded c3_matching =
        RRes.panic "unwrap on Err: parse size" := by
  decide

/-- C4: the claim says parsing "tree deadbeef\nparent aaaa\n\nInitial
commit\n" yields {tree ↦ [deadbeef], parent ↦ [aaaa], "" ↦ [Initial
commit\n]}, with every occurrence of a key appended.  The code instead
panics on that body (iterator positions relative to `start` are used as
absolute indices, so the blank-line assert fires at the second field), it
never inserts a first occurrence of any key (the `contains_key` branch
has no else), and it also panics on the empty body that its own
`parse_empty_log` test expects to give an empty map. -/
theorem kvlm_parse_drops_first_occurrence_and_panics :
    gitCommit_deserialize c4_body =
        RRes.panic "assertion failed: newline == start" ∧
      gitCommit_deserialize c4_body ≠ RRes.ok c4_expected ∧
      gitCommit_deserialize [] = RRes.panic "unwrap on None: newline" := by
  decide

/-- C5: the claim says decompress drains the whole stream, returns every
byte, and errors on malformed input.  `decode_reader` calls `read_exact`
on a zero-length buffer, so it returns `Ok(vec![])` for every input: it
never yields the decompressed bytes of any nonempty payload, whatever the
compressor did, and never reports a corrupt stream. -/
theorem decode_reader_always_returns_empty (compress : Bytes → Bytes)
    (b : Bytes) (h : b ≠ []) :
    decode_reader (compress b) = Except.ok [] ∧
      decode_reader (compress b) ≠ Except.ok b := by
  refine ⟨rfl, fun hc => ?_⟩
  simp only [decode_reader, Except.ok.injEq] at hc
  exact h hc.symm

/-- Witness for C5 at the identity compressor and the one-byte body
[104]. -/
theorem decode_reader_always_returns_empty_witness :
    (([104] : Bytes) ≠ []) ∧
      (decode_reader (id [104]) = Except.ok [] ∧
        decode_reader (id [104]) ≠ Except.ok [104]) :=
  ⟨by decide, decode_reader_always_returns_empty id [104] (by decide)⟩

/-- C6: the claim says the textual digest the tree codec produces is the
40 lowercase hex characters of the 20 raw bytes after the path's NUL.  On
the entry "10064 f\0" followed by an all-zero 20-byte digest, the decoder
does consume exactly bytes 8..27 (the returned cursor is 28 = NUL
position 7 + 21), but the textual form is "0" — one character, because
`sha_parse_u32` folds the digest into a single u32 (discarding bytes
16..19 entirely) and `format!("{:x}", ..)` emits no padding. -/
theorem tree_digest_hex_not_forty_chars :
    tree_parse_one c6_entry 0 =
        RRes.ok (28, ⟨[49, 48, 48, 54, 52], [102], [48]⟩) ∧
      (sha_parse_str (sha_parse_u32 (List.replicate 20 0))).length ≠ 40 := by
  decide

/-- C7: the claim says the log walk on the cycle a → b → a terminates
after visiting each commit once, emitting the edges (a,b) and (b,a).  The
code checks `contains_key("parent")` but then indexes `cc["parents"]` —
a key that never exists — so on the very first commit with a parent it
panics instead of emitting anything. -/
theorem log_graphviz_panics_on_parent_commit :
    log_graphviz c7_store 10 [97] [] [] =
      RRes.panic "no entry found for key" := by
  decide

/-- C8: the claim says a mode whose length is not 5 or 6 yields a typed
FormatError and lengths 5 and 6 are never rejected.  On "1006 f\0" (mode
length 4) the code panics via `assert!` rather than returning an error;
the 6-digit mode "100644 f\0" is accepted. -/
theorem tree_parse_one_mode_length_asserts :
    tree_parse_one c8_bad 0 =
        RRes.panic "assertion failed: mode length is 5 or 6" ∧
      tree_parse_one c8_good 0 =
        RRes.ok (29, ⟨[49, 48, 48, 54, 52, 52], [102], [48]⟩) := by
  decide

/-- C9: when the starting digest resolves to a Blob (or a Tag — any kind
other than Commit or Tree), `cmd_checkout` returns the type-mismatch
error from the dispatch match, before any destination check, directory
creation or file write, so the file system is returned unchanged. -/
theorem cmd_checkout_type_mismatch_no_fs_change
    (readO : Bytes → RRes GObj) (fuel : Nat) (sha path : Bytes) (fs : FS)
    (b : Bytes)
    (h : readO sha = RRes.ok (GObj.blob b) ∨ readO sha = RRes.ok GObj.tag) :
    cmd_checkout readO fuel sha path fs =
      (RRes.err "Expected a tree object or a commit object, got something else",
        fs) := by
  rcases h with h | h <;> simp [cmd_checkout, h]

/-- Witness for C9: a reader resolving id [99] to a Blob, an empty file
system, destination path [100]. -/
theorem cmd_checkout_type_mismatch_no_fs_change_witness :
    (c9_read [99] = RRes.ok (GObj.blob [104]) ∨
        c9_read [99] = RRes.ok GObj.tag) ∧
      cmd_checkout c9_read 5 [99] [100] fsEmpty =
        (RRes.err "Expected a tree object or a commit object, got something else",
          fsEmpty) :=
  ⟨Or.inl rfl,
    cmd_checkout_type_mismatch_no_fs_change c9_read 5 [99] [100] fsEmpty [104]
      (Or.inl rfl)⟩

/-- C10: store read panics rather than returning a typed error when its
precondition is violated: an object id of length 1 panics in the path
computation `&sha[..2]` (before the store is even consulted), and a
decoded header "blob x\0" whose bytes between the space and the NUL are
not a decimal number panics at `size.parse().unwrap()`. -/
theorem object_read_panics_on_short_id_and_bad_size :
    object_read (fun _ => none) [97] =
        RRes.panic "byte index 2 is out of bounds of the string" ∧
      object_read_decoded [98, 108, 111, 98, 32, 120, 0] =
        RRes.panic "unwrap on Err: parse size" := by
  decide

end Wyag
